import Mathlib

/-!
Shallow embedding of the match scoring engine of
`src/backend/app/ml/job_matcher.py` (class `JobMatcherAI`).

Python floats are modelled as rationals (all constants in the source are
short decimals), Python dict-based records as Lean structures, Python
string operations `str.lower` / `str.strip` / the `in` substring test as
character-list operations, and Python sets of strings as `Finset String`.
The semantic text score (a BERT cosine similarity, external to the
deterministic code) enters the pipeline as an explicit parameter
`cosine`, clamped by the embedded `max(0, similarity)` of the source; the
culture dimension is embedded on its deterministic local path
(`_calculate_culture_basic`).
-/

/-- Model of Python `str.lower()` over the character list. -/
def lower (s : String) : String := ⟨s.data.map Char.toLower⟩

/-- Model of Python `str.strip()`: drop leading and trailing whitespace. -/
def strip (s : String) : String :=
  ⟨((s.data.dropWhile Char.isWhitespace).reverse.dropWhile Char.isWhitespace).reverse⟩

/-- Model of the Python substring test `needle in hay`. -/
def containsSub (hay needle : String) : Bool := decide (needle.data <:+: hay.data)

namespace JobMatcher

/-- One entry of the education list of a resume (dict with keys
`institution`, `degree`, `field` in the source; only `degree` is read). -/
structure EduEntry where
  institution : String
  degree : String
  fieldOfStudy : String
deriving DecidableEq

/-- The fields of the `resume_data` dict read by the matcher. -/
structure ResumeData where
  extracted_text : String
  skills : List String
  work_experience : List String
  education : List EduEntry
  experience_years : ℚ
  candidate_name : String
  candidate_location : String

/-- The fields of the `job_data` dict read by the matcher. -/
structure JobData where
  description : String
  required_skills : List String
  preferred_skills : List String
  requirements : List String
  min_experience_years : ℚ
  education_level : String

/-- Normalization applied to one skill in `_calculate_skills_similarity`:
`skill.lower().strip()`. -/
def normalize_skill (s : String) : String := strip (lower s)

/-- Embedding of `_calculate_skills_similarity` (job_matcher.py lines
209-245): Jaccard similarity of the normalized skill sets, averaged with a
required-skill boost computed from the first half of the job skill list,
then clamped above by 1. -/
def calculate_skills_similarity (resume_skills job_skills : List String) : ℚ :=
  if resume_skills = [] ∨ job_skills = [] then 0
  else
    let rn := resume_skills.map normalize_skill
    let jn := job_skills.map normalize_skill
    let matching := rn.toFinset ∩ jn.toFinset
    let union := rn.toFinset ∪ jn.toFinset
    if union = ∅ then 0
    else
      let jaccard : ℚ := (matching.card : ℚ) / (union.card : ℚ)
      let required := jn.take (jn.length / 2)
      let required_matches := matching ∩ required.toFinset
      let similarity : ℚ :=
        if required = [] then jaccard
        else (jaccard + (required_matches.card : ℚ) / (required.length : ℚ)) / 2
      min similarity 1

/-- Embedding of `_calculate_experience_similarity` (lines 247-274). -/
def calculate_experience_similarity (resume_years job_min_years : ℚ) : ℚ :=
  if job_min_years ≤ resume_years then
    if resume_years ≤ job_min_years * (3/2) then 1
    else max (7/10) (1 - (resume_years - job_min_years * (3/2)) / 10)
  else
    let gap := job_min_years - resume_years
    if gap ≤ 1 then 8/10
    else if gap ≤ 3 then 1/2
    else 1/5

/-- The rank table of `_calculate_education_similarity` (lines 283-289).
Note it has no `doctorate` key. -/
def education_levels_sim : List (String × Nat) :=
  [("high school", 1), ("associate", 2), ("bachelor", 3), ("master", 4), ("phd", 5)]

/-- Embedding of `_calculate_education_similarity` (lines 276-302):
`dict.get(key, 0)` becomes an association-list lookup defaulting to 0. -/
def calculate_education_similarity (resume_education job_education : String) : ℚ :=
  let resume_level := (education_levels_sim.lookup (lower resume_education)).getD 0
  let job_level := (education_levels_sim.lookup (lower job_education)).getD 0
  if job_level ≤ resume_level then 1
  else max (3/10) (1 - ((job_level : ℚ) - (resume_level : ℚ)) * (2/10))

/-- The fixed soft-skill vocabulary of `_calculate_culture_basic`. -/
def soft_skills : List String :=
  ["teamwork", "leadership", "communication", "problem solving",
   "collaboration", "initiative", "adaptability", "creativity",
   "time management", "organization", "attention to detail"]

/-- Embedding of `_calculate_culture_basic` (lines 388-414), the
deterministic local culture path (taken whenever no Grok API key is
configured or the remote call fails). -/
def calculate_culture_basic (resume_text job_text : String) : ℚ :=
  let resume_lower := lower resume_text
  let job_lower := lower job_text
  let resume_sk := soft_skills.filter (fun s => containsSub resume_lower s)
  let job_sk := soft_skills.filter (fun s => containsSub job_lower s)
  if job_sk = [] then 1/2
  else
    let matching := resume_sk.toFinset ∩ job_sk.toFinset
    min ((matching.card : ℚ) / (job_sk.length : ℚ)) 1

/-- Embedding of the clamp `max(0, similarity)` of
`_calculate_text_similarity` (line 329); the cosine similarity itself is
computed by the external BERT model and enters as the parameter. -/
def calculate_text_similarity (cosine : ℚ) : ℚ := max 0 cosine

/-- The city substrings of `_detect_potential_bias` (line 459). -/
def major_cities : List String := ["new york", "san francisco", "london"]

/-- Embedding of `_detect_potential_bias` (lines 450-466). The `name`
argument is received but never used by the source body. -/
def detect_potential_bias (name location : String) : ℚ :=
  let bias_score : ℚ :=
    if location ≠ "" ∧ major_cities.any (fun c => containsSub (lower location) c)
    then 5/100 else 0
  min bias_score (1/10)

/-- The five similarity scores produced by `_calculate_similarity_scores`
(the dict always holds exactly these five keys at that point). -/
structure DimScores where
  skills : ℚ
  experience : ℚ
  education : ℚ
  text : ℚ
  culture : ℚ

/-- The score dict after `_apply_bias_mitigation`: the five adjusted
dimensions plus the `bias_score` and `fairness_adjustment` keys. -/
structure MitigatedScores where
  skills : ℚ
  experience : ℚ
  education : ℚ
  text : ℚ
  culture : ℚ
  bias_score : ℚ
  fairness_adjustment : ℚ

/-- Embedding of `_apply_bias_mitigation` (lines 416-448): every key of
the incoming score dict (none of which is `bias_score`) is raised by the
fairness adjustment and clamped at 1. -/
def apply_bias_mitigation (scores : DimScores) (candidate_name candidate_location : String) :
    MitigatedScores :=
  let bias_score := detect_potential_bias candidate_name candidate_location
  let fairness_adjustment := max 0 (1/10 - bias_score)
  { skills := min 1 (scores.skills + fairness_adjustment)
    experience := min 1 (scores.experience + fairness_adjustment)
    education := min 1 (scores.education + fairness_adjustment)
    text := min 1 (scores.text + fairness_adjustment)
    culture := min 1 (scores.culture + fairness_adjustment)
    bias_score := bias_score
    fairness_adjustment := fairness_adjustment }

/-- A score dict as seen by `_calculate_overall_score`: each of the five
weighted dimensions may be present or absent (`dict` membership). -/
structure ScoreMap where
  skills : Option ℚ
  experience : Option ℚ
  education : Option ℚ
  text : Option ℚ
  culture : Option ℚ

/-- Embedding of `_calculate_overall_score` (lines 582-609): weighted sum
over the dimensions present in the dict, renormalized by the total weight
of the present dimensions; 0 when that total is not positive. -/
def calculate_overall_score (scores : ScoreMap) : ℚ :=
  let entries : List (Option ℚ × ℚ) :=
    [(scores.skills, 35/100), (scores.experience, 25/100), (scores.education, 15/100),
     (scores.text, 15/100), (scores.culture, 10/100)]
  let overall := entries.foldl
    (fun acc e => match e.1 with | some v => acc + v * e.2 | none => acc) 0
  let total := entries.foldl
    (fun acc e => match e.1 with | some _ => acc + e.2 | none => acc) 0
  if 0 < total then overall / total else 0

/-- The rank table of `_extract_education_level` (lines 617-624), in the
iteration order of the Python dict. -/
def education_levels_extract : List (String × Nat) :=
  [("phd", 5), ("doctorate", 5), ("master", 4), ("bachelor", 3),
   ("associate", 2), ("high school", 1)]

/-- The update of one inner-loop iteration of `_extract_education_level`:
replace the current (level, score) pair by the table pair whenever the
keyword occurs in the degree text with a strictly higher score. -/
def rank_update (degree : String) (s p : String × Nat) : String × Nat :=
  if containsSub degree p.1 ∧ s.2 < p.2 then p else s

/-- One iteration of the outer loop of `_extract_education_level`: scan
the rank table with `rank_update` over the lower-cased degree text. -/
def edu_step (st : String × Nat) (edu : EduEntry) : String × Nat :=
  education_levels_extract.foldl (rank_update (lower edu.degree)) st

/-- Embedding of `_extract_education_level` (lines 611-640): fold over the
education entries starting from the default `("bachelor", 3)`. -/
def extract_education_level (education : List EduEntry) : String :=
  if education = [] then "bachelor"
  else (education.foldl edu_step ("bachelor", 3)).1

/-- The candidate skill set built by `_generate_match_insights` (line
524): lower-cased only, not stripped. -/
def resume_skill_set (resume : ResumeData) : Finset String :=
  (resume.skills.map lower).toFinset

/-- The job skill set built by `_generate_match_insights` (line 525). -/
def job_skill_set (job : JobData) : Finset String :=
  ((job.required_skills ++ job.preferred_skills).map lower).toFinset

/-- The numeric and set-valued fields of the dict returned by
`match_resume_to_job` (lines 84-101); `detailed_scores` carries the full
mitigated score dict including the text dimension. -/
structure MatchResult where
  overall_score : ℚ
  skills_score : ℚ
  experience_score : ℚ
  education_score : ℚ
  culture_score : ℚ
  skill_matches : Finset String
  missing_skills : Finset String
  experience_gap : ℚ
  bias_score : ℚ
  fairness_adjustment : ℚ
  detailed_scores : MitigatedScores

/-- Embedding of `match_resume_to_job` (lines 50-105) on its
deterministic path: feature extraction, the five dimension scorers (text
entering through `cosine`, culture through the local baseline), bias
mitigation, aggregation, and the insight fields of
`_generate_match_insights` (lines 513-580). -/
def match_resume_to_job (cosine : ℚ) (resume : ResumeData) (job : JobData) : MatchResult :=
  let resume_education := extract_education_level resume.education
  let all_skills := job.required_skills ++ job.preferred_skills
  let sim : DimScores :=
    { skills := calculate_skills_similarity resume.skills all_skills
      experience := calculate_experience_similarity resume.experience_years job.min_experience_years
      education := calculate_education_similarity resume_education job.education_level
      text := calculate_text_similarity cosine
      culture := calculate_culture_basic resume.extracted_text job.description }
  let mitigated := apply_bias_mitigation sim resume.candidate_name resume.candidate_location
  let overall := calculate_overall_score
    { skills := some mitigated.skills
      experience := some mitigated.experience
      education := some mitigated.education
      text := some mitigated.text
      culture := some mitigated.culture }
  { overall_score := overall
    skills_score := mitigated.skills
    experience_score := mitigated.experience
    education_score := mitigated.education
    culture_score := mitigated.culture
    skill_matches := resume_skill_set resume ∩ job_skill_set job
    missing_skills := job_skill_set job \ resume_skill_set resume
    experience_gap := max 0 (job.min_experience_years - resume.experience_years)
    bias_score := mitigated.bias_score
    fairness_adjustment := mitigated.fairness_adjustment
    detailed_scores := mitigated }

/-- Modelled from the spec: the canonicalization the spec ascribes to
`missing_skills` — skill strings both lower-cased AND trimmed (the source
of `_generate_match_insights` only lower-cases). Used to compare the
spec reading with the embedded code. -/
def spec_missing_skills (resume : ResumeData) (job : JobData) : Finset String :=
  ((job.required_skills ++ job.preferred_skills).map normalize_skill).toFinset \
    (resume.skills.map normalize_skill).toFinset

/-- Modelled from the spec: weighted sum of the present dimension scores
(spec section 4.5). -/
def spec_weighted_sum (s : ScoreMap) : ℚ :=
  (match s.skills with | some v => v * (35/100) | none => 0) +
  (match s.experience with | some v => v * (25/100) | none => 0) +
  (match s.education with | some v => v * (15/100) | none => 0) +
  (match s.text with | some v => v * (15/100) | none => 0) +
  (match s.culture with | some v => v * (10/100) | none => 0)

/-- Modelled from the spec: sum of the weights of the present dimensions
(spec section 4.5). -/
def spec_present_weight (s : ScoreMap) : ℚ :=
  (match s.skills with | some _ => (35:ℚ)/100 | none => 0) +
  (match s.experience with | some _ => (25:ℚ)/100 | none => 0) +
  (match s.education with | some _ => (15:ℚ)/100 | none => 0) +
  (match s.text with | some _ => (15:ℚ)/100 | none => 0) +
  (match s.culture with | some _ => (10:ℚ)/100 | none => 0)

/-- The rank a level string receives in the extraction table. -/
def extract_rank (level : String) : Nat :=
  (education_levels_extract.lookup level).getD 0

/-- The highest rank whose keyword occurs in a lower-cased degree text;
0 when no keyword matches. -/
def matched_rank (degree : String) : Nat :=
  education_levels_extract.foldl
    (fun a p => if containsSub degree p.1 then max a p.2 else a) 0

/-- The highest keyword rank matched anywhere in an education list. -/
def max_matched_rank (education : List EduEntry) : Nat :=
  education.foldl (fun a e => max a (matched_rank (lower e.degree))) 0

end JobMatcher

namespace JobMatcher

/-! Range lemmas for the individual scorers. -/

theorem skills_similarity_mem (rs js : List String) :
    0 ≤ calculate_skills_similarity rs js ∧ calculate_skills_similarity rs js ≤ 1 := by
  simp only [calculate_skills_similarity]
  split_ifs with h1 h2 h3
  · norm_num
  · norm_num
  · constructor
    · exact le_min (by positivity) zero_le_one
    · exact min_le_right _ _
  · constructor
    · exact le_min (by positivity) zero_le_one
    · exact min_le_right _ _

theorem experience_similarity_mem (y m : ℚ) :
    0 ≤ calculate_experience_similarity y m ∧ calculate_experience_similarity y m ≤ 1 := by
  simp only [calculate_experience_similarity]
  split_ifs with h1 h2 h3 h4
  · norm_num
  · constructor
    · exact le_trans (by norm_num) (le_max_left _ _)
    · exact max_le (by norm_num) (by push_neg at h2; linarith)
  · norm_num
  · norm_num
  · norm_num

theorem education_similarity_mem (r j : String) :
    0 ≤ calculate_education_similarity r j ∧ calculate_education_similarity r j ≤ 1 := by
  simp only [calculate_education_similarity]
  split_ifs with h1
  · norm_num
  · push_neg at h1
    have hq : (1 : ℚ) ≤ ((education_levels_sim.lookup (lower j)).getD 0 : ℚ)
        - ((education_levels_sim.lookup (lower r)).getD 0 : ℚ) := by
      have := Nat.succ_le_of_lt h1
      have : ((education_levels_sim.lookup (lower r)).getD 0 : ℚ) + 1
          ≤ ((education_levels_sim.lookup (lower j)).getD 0 : ℚ) := by
        exact_mod_cast this
      linarith
    constructor
    · exact le_trans (by norm_num) (le_max_left _ _)
    · exact max_le (by norm_num) (by linarith)

theorem culture_basic_mem (rt jt : String) :
    0 ≤ calculate_culture_basic rt jt ∧ calculate_culture_basic rt jt ≤ 1 := by
  simp only [calculate_culture_basic]
  split_ifs with h1
  · norm_num
  · constructor
    · exact le_min (by positivity) zero_le_one
    · exact min_le_right _ _

theorem text_similarity_mem (cosine : ℚ) (hc : cosine ≤ 1) :
    0 ≤ calculate_text_similarity cosine ∧ calculate_text_similarity cosine ≤ 1 := by
  simp only [calculate_text_similarity]
  exact ⟨le_max_left _ _, max_le zero_le_one hc⟩

theorem detect_potential_bias_mem (name location : String) :
    0 ≤ detect_potential_bias name location ∧ detect_potential_bias name location ≤ 1/10 := by
  simp only [detect_potential_bias]
  refine ⟨le_min ?_ (by norm_num), min_le_right _ _⟩
  split_ifs <;> norm_num

/-- C3: the experience score follows the exact piecewise shape stated in
the spec: 1.0 in the optimal band, an overqualification penalty of
max(0.7, 1 - (y - 1.5m)/10) above 1.5m, and the tiered 0.8 / 0.5 / 0.2
underqualification values; at years=5, min=3 it is 0.95. -/
theorem claim_C3_experience_similarity (y m : ℚ) (hy : 0 ≤ y) (hm : 0 ≤ m) :
    (m ≤ y → y ≤ (3/2) * m → calculate_experience_similarity y m = 1) ∧
    ((3/2) * m < y →
      calculate_experience_similarity y m = max (7/10) (1 - (y - (3/2) * m) / 10)) ∧
    (y < m → m - y ≤ 1 → calculate_experience_similarity y m = 8/10) ∧
    (y < m → 1 < m - y → m - y ≤ 3 → calculate_experience_similarity y m = 1/2) ∧
    (y < m → 3 < m - y → calculate_experience_similarity y m = 1/5) := by
  refine ⟨?_, ?_, ?_, ?_, ?_⟩
  · intro h1 h2
    simp only [calculate_experience_similarity]
    rw [if_pos h1, if_pos (by linarith)]
  · intro h
    have h1 : m ≤ y := by linarith
    simp only [calculate_experience_similarity]
    rw [if_pos h1, if_neg (by intro hc; linarith), mul_comm m (3/2)]
  · intro h1 h2
    simp only [calculate_experience_similarity]
    rw [if_neg (by linarith), if_pos h2]
  · intro h1 h2 h3
    simp only [calculate_experience_similarity]
    rw [if_neg (by linarith), if_neg (by linarith), if_pos h3]
  · intro h1 h2
    simp only [calculate_experience_similarity]
    rw [if_neg (by linarith), if_neg (by linarith), if_neg (by linarith)]

/-- C3 witness: the theorem applied at years=5, min=3, where the
overqualified branch yields max(0.7, 1 - 0.5/10) = 0.95. -/
theorem claim_C3_experience_similarity_witness :
    calculate_experience_similarity 5 3 = 19/20 := by
  have h := (claim_C3_experience_similarity 5 3 (by norm_num) (by norm_num)).2.1
    (by norm_num)
  rw [h]
  norm_num

/-- C4: evaluating `_calculate_education_similarity` at the failing
input. Candidate bachelor versus job master gives 0.8 as the claim says,
but a candidate level of `doctorate` — a value `_extract_education_level`
itself produces with rank 5 — is absent from the rank table of
`_calculate_education_similarity`, ranks 0, and against a bachelor job
scores max(0.3, 1 - 3*0.2) = 0.4 instead of the claimed 1.0. -/
theorem claim_C4_doctorate_unranked :
    calculate_education_similarity "bachelor" "master" = 8/10 ∧
    calculate_education_similarity "doctorate" "bachelor" = 2/5 ∧
    extract_education_level [⟨"U", "Doctorate in Physics", "Physics"⟩] = "doctorate" := by
  refine ⟨?_, ?_, by decide⟩
  · simp only [calculate_education_similarity]
    norm_num [show ((education_levels_sim.lookup (lower "bachelor")).getD 0) = 3 from by decide,
      show ((education_levels_sim.lookup (lower "master")).getD 0) = 4 from by decide]
  · simp only [calculate_education_similarity]
    norm_num [show ((education_levels_sim.lookup (lower "doctorate")).getD 0) = 0 from by decide,
      show ((education_levels_sim.lookup (lower "bachelor")).getD 0) = 3 from by decide]

end JobMatcher

namespace JobMatcher

theorem min_one_add_sandwich (s adj : ℚ) (h1 : s ≤ 1) (h0 : 0 ≤ adj) :
    s ≤ min 1 (s + adj) ∧ min 1 (s + adj) ≤ 1 :=
  ⟨le_min h1 (by linarith), min_le_left _ _⟩

/-- C6: bias mitigation computes a bias score in [0, 0.1] (equal to 0.05
when the location holds a major-city substring), sets the fairness
adjustment to max(0, 0.1 - bias), replaces each dimension score s by
min(1, s + adjustment), and on scores in [0,1] is monotone non-decreasing
while never pushing a score above 1. -/
theorem claim_C6_bias_mitigation (scores : DimScores) (name location : String)
    (hsk : 0 ≤ scores.skills ∧ scores.skills ≤ 1)
    (hex : 0 ≤ scores.experience ∧ scores.experience ≤ 1)
    (hed : 0 ≤ scores.education ∧ scores.education ≤ 1)
    (htx : 0 ≤ scores.text ∧ scores.text ≤ 1)
    (hcu : 0 ≤ scores.culture ∧ scores.culture ≤ 1) :
    let m := apply_bias_mitigation scores name location
    (0 ≤ m.bias_score ∧ m.bias_score ≤ 1/10) ∧
    (location ≠ "" → (major_cities.any fun c => containsSub (lower location) c) →
      m.bias_score = 1/20) ∧
    m.fairness_adjustment = max 0 (1/10 - m.bias_score) ∧
    (m.skills = min 1 (scores.skills + m.fairness_adjustment) ∧
     m.experience = min 1 (scores.experience + m.fairness_adjustment) ∧
     m.education = min 1 (scores.education + m.fairness_adjustment) ∧
     m.text = min 1 (scores.text + m.fairness_adjustment) ∧
     m.culture = min 1 (scores.culture + m.fairness_adjustment)) ∧
    ((scores.skills ≤ m.skills ∧ m.skills ≤ 1) ∧
     (scores.experience ≤ m.experience ∧ m.experience ≤ 1) ∧
     (scores.education ≤ m.education ∧ m.education ≤ 1) ∧
     (scores.text ≤ m.text ∧ m.text ≤ 1) ∧
     (scores.culture ≤ m.culture ∧ m.culture ≤ 1)) := by
  intro m
  have hbias := detect_potential_bias_mem name location
  have hadj : 0 ≤ max 0 (1/10 - detect_potential_bias name location) := le_max_left _ _
  refine ⟨hbias, ?_, rfl, ⟨rfl, rfl, rfl, rfl, rfl⟩, ?_⟩
  · intro hloc hcity
    show detect_potential_bias name location = 1/20
    simp only [detect_potential_bias]
    rw [if_pos ⟨hloc, hcity⟩]
    norm_num
  · exact ⟨min_one_add_sandwich _ _ hsk.2 hadj, min_one_add_sandwich _ _ hex.2 hadj,
      min_one_add_sandwich _ _ hed.2 hadj, min_one_add_sandwich _ _ htx.2 hadj,
      min_one_add_sandwich _ _ hcu.2 hadj⟩

/-- C6 witness: the theorem applied to scores of 0.5 and location
"london": the bias score is 0.05 and the skills score is not lowered. -/
theorem claim_C6_bias_mitigation_witness :
    (apply_bias_mitigation ⟨1/2, 1/2, 1/2, 1/2, 1/2⟩ "A" "london").bias_score = 1/20 ∧
    (1/2 : ℚ) ≤ (apply_bias_mitigation ⟨1/2, 1/2, 1/2, 1/2, 1/2⟩ "A" "london").skills := by
  have h := claim_C6_bias_mitigation ⟨1/2, 1/2, 1/2, 1/2, 1/2⟩ "A" "london"
    (by norm_num) (by norm_num) (by norm_num) (by norm_num) (by norm_num)
  exact ⟨h.2.1 (by decide) (by decide), h.2.2.2.2.1.1⟩

/-- C7: the overall score is the weighted sum of the present dimension
scores divided by the total weight of the present dimensions, absent
dimensions being excluded from both numerator and denominator; it is 0
when no dimension is present, and with only skills and experience present
it equals (skills*0.35 + experience*0.25)/0.60. -/
theorem claim_C7_overall_score (s : ScoreMap) :
    (s.skills = none → s.experience = none → s.education = none → s.text = none →
      s.culture = none → calculate_overall_score s = 0) ∧
    ((s.skills ≠ none ∨ s.experience ≠ none ∨ s.education ≠ none ∨ s.text ≠ none ∨
      s.culture ≠ none) →
      calculate_overall_score s = spec_weighted_sum s / spec_present_weight s) ∧
    (∀ a b : ℚ, calculate_overall_score ⟨some a, some b, none, none, none⟩
      = (a * (35/100) + b * (25/100)) / (3/5)) := by
  obtain ⟨k, x, e, t, c⟩ := s
  refine ⟨?_, ?_, ?_⟩
  · intro h1 h2 h3 h4 h5
    subst h1; subst h2; subst h3; subst h4; subst h5
    norm_num [calculate_overall_score]
  · intro hne
    rcases k with _ | k <;> rcases x with _ | x <;> rcases e with _ | e <;>
      rcases t with _ | t <;> rcases c with _ | c <;>
      simp_all only [ne_eq, not_true_eq_false, or_false, or_true, true_or, false_or,
        reduceCtorEq, not_false_eq_true] <;>
      norm_num [calculate_overall_score, spec_weighted_sum, spec_present_weight]
  · intro a b
    norm_num [calculate_overall_score]

/-- C7 witness: the theorem applied to a map with only skills = 0.8 and
experience = 0.6 present. -/
theorem claim_C7_overall_score_witness :
    calculate_overall_score ⟨some (8/10), some (6/10), none, none, none⟩
      = ((8/10) * (35/100) + (6/10) * (25/100)) / (3/5) :=
  (claim_C7_overall_score ⟨some (8/10), some (6/10), none, none, none⟩).2.2 (8/10) (6/10)

end JobMatcher

namespace JobMatcher

theorem overall_all_some (a b c d e : ℚ) :
    calculate_overall_score ⟨some a, some b, some c, some d, some e⟩
      = a * (35/100) + b * (25/100) + c * (15/100) + d * (15/100) + e * (10/100) := by
  norm_num [calculate_overall_score]

theorem min_one_add_mem (s adj : ℚ) (h0 : 0 ≤ s) (ha : 0 ≤ adj) :
    0 ≤ min 1 (s + adj) ∧ min 1 (s + adj) ≤ 1 :=
  ⟨le_min zero_le_one (by linarith), min_le_left _ _⟩

/-- C1: on valid inputs (non-negative years on both sides; the externally
computed cosine similarity at most 1, as a cosine is), every numeric field
of the returned MatchResult lies in its stated range: the overall score
and the five mitigated dimension scores (the text dimension read from
`detailed_scores`) in [0,1], bias score and fairness adjustment in
[0, 0.1], and the experience gap non-negative. -/
theorem claim_C1_match_result_ranges (cosine : ℚ) (resume : ResumeData) (job : JobData)
    (hy : 0 ≤ resume.experience_years) (hm : 0 ≤ job.min_experience_years)
    (hcos : cosine ≤ 1) :
    let r := match_resume_to_job cosine resume job
    (0 ≤ r.overall_score ∧ r.overall_score ≤ 1) ∧
    (0 ≤ r.skills_score ∧ r.skills_score ≤ 1) ∧
    (0 ≤ r.experience_score ∧ r.experience_score ≤ 1) ∧
    (0 ≤ r.education_score ∧ r.education_score ≤ 1) ∧
    (0 ≤ r.detailed_scores.text ∧ r.detailed_scores.text ≤ 1) ∧
    (0 ≤ r.culture_score ∧ r.culture_score ≤ 1) ∧
    (0 ≤ r.bias_score ∧ r.bias_score ≤ 1/10) ∧
    (0 ≤ r.fairness_adjustment ∧ r.fairness_adjustment ≤ 1/10) ∧
    0 ≤ r.experience_gap := by
  intro r
  have hsk := skills_similarity_mem resume.skills (job.required_skills ++ job.preferred_skills)
  have hex := experience_similarity_mem resume.experience_years job.min_experience_years
  have hed := education_similarity_mem (extract_education_level resume.education)
    job.education_level
  have htx := text_similarity_mem cosine hcos
  have hcu := culture_basic_mem resume.extracted_text job.description
  have hbias := detect_potential_bias_mem resume.candidate_name resume.candidate_location
  have h0adj : 0 ≤ max 0 (1/10 - detect_potential_bias resume.candidate_name
      resume.candidate_location) := le_max_left _ _
  have hadj10 : max 0 (1/10 - detect_potential_bias resume.candidate_name
      resume.candidate_location) ≤ 1/10 := max_le (by norm_num) (by linarith [hbias.1])
  have msk := min_one_add_mem _ _ hsk.1 h0adj
  have mex := min_one_add_mem _ _ hex.1 h0adj
  have med := min_one_add_mem _ _ hed.1 h0adj
  have mtx := min_one_add_mem _ _ htx.1 h0adj
  have mcu := min_one_add_mem _ _ hcu.1 h0adj
  show _ ∧ _
  simp only [r, match_resume_to_job, apply_bias_mitigation]
  refine ⟨?_, msk, mex, med, mtx, mcu, hbias, ⟨h0adj, hadj10⟩, le_max_left _ _⟩
  rw [overall_all_some]
  constructor
  · linarith [msk.1, mex.1, med.1, mtx.1, mcu.1]
  · linarith [msk.2, mex.2, med.2, mtx.2, mcu.2]

/-- C1 witness: the theorem applied to a concrete candidate and job. -/
theorem claim_C1_match_result_ranges_witness :
    0 ≤ (match_resume_to_job (1/2)
      { extracted_text := "teamwork", skills := ["python"], work_experience := [],
        education := [], experience_years := 4, candidate_name := "A",
        candidate_location := "london" }
      { description := "teamwork needed", required_skills := ["python"],
        preferred_skills := ["sql"], requirements := [], min_experience_years := 3,
        education_level := "bachelor" }).overall_score := by
  have h := claim_C1_match_result_ranges (1/2)
    { extracted_text := "teamwork", skills := ["python"], work_experience := [],
      education := [], experience_years := 4, candidate_name := "A",
      candidate_location := "london" }
    { description := "teamwork needed", required_skills := ["python"],
      preferred_skills := ["sql"], requirements := [], min_experience_years := 3,
      education_level := "bachelor" }
    (by norm_num) (by norm_num) (by norm_num)
  exact h.1.1

end JobMatcher

namespace JobMatcher

/-- C10: the candidate name never influences the result. Two resumes
differing only in `candidate_name` produce identical MatchResults on the
deterministic path: `_detect_potential_bias` receives the name but its
body never uses it. -/
theorem claim_C10_name_irrelevant (cosine : ℚ) (resume : ResumeData) (job : JobData)
    (n₁ n₂ : String) :
    match_resume_to_job cosine { resume with candidate_name := n₁ } job =
    match_resume_to_job cosine { resume with candidate_name := n₂ } job := rfl

/-- C8 (amended): `missing_skills` equals the set difference of the
lower-cased job skill union minus the lower-cased candidate skills —
lower-cased ONLY; `_generate_match_insights` does not strip surrounding
whitespace, unlike `_calculate_skills_similarity`. -/
theorem claim_C8_missing_skills_amended (cosine : ℚ) (resume : ResumeData) (job : JobData) :
    (match_resume_to_job cosine resume job).missing_skills =
      ((job.required_skills ++ job.preferred_skills).map lower).toFinset \
        (resume.skills.map lower).toFinset := rfl

/-- C8 counterexample: with candidate skill "Python " (trailing blank)
and job skill "python", the code reports "python" missing, while the
claimed lower-case-and-trim canonicalization would report nothing
missing. -/
theorem claim_C8_missing_skills_counterexample :
    (match_resume_to_job 0
      { extracted_text := "", skills := ["Python "], work_experience := [],
        education := [], experience_years := 0, candidate_name := "",
        candidate_location := "" }
      { description := "", required_skills := ["python"], preferred_skills := [],
        requirements := [], min_experience_years := 0,
        education_level := "bachelor" }).missing_skills = {"python"} ∧
    spec_missing_skills
      { extracted_text := "", skills := ["Python "], work_experience := [],
        education := [], experience_years := 0, candidate_name := "",
        candidate_location := "" }
      { description := "", required_skills := ["python"], preferred_skills := [],
        requirements := [], min_experience_years := 0,
        education_level := "bachelor" } = ∅ ∧
    ({"python"} : Finset String) ≠ ∅ := by
  exact ⟨by decide, by decide, by decide⟩

end JobMatcher

namespace JobMatcher

/-- C2 (amended): the skills score is the Jaccard similarity of the
normalized skill sets when the first half of the job skill list is empty,
else the average of the Jaccard similarity and the required boost counted
against the LENGTH of that first-half list (duplicates included), clamped
at 1; both lists empty gives 0, disjoint non-empty sets give 0, and
identical non-empty sets give 1 PROVIDED the first half of the normalized
job list has no duplicates. -/
theorem claim_C2_skills_similarity_amended (rs js : List String) :
    (rs = [] ∧ js = [] → calculate_skills_similarity rs js = 0) ∧
    (rs ≠ [] → js ≠ [] →
      (js.map normalize_skill).take ((js.map normalize_skill).length / 2) = [] →
      calculate_skills_similarity rs js =
        (((rs.map normalize_skill).toFinset ∩ (js.map normalize_skill).toFinset).card : ℚ) /
        (((rs.map normalize_skill).toFinset ∪ (js.map normalize_skill).toFinset).card : ℚ)) ∧
    (rs ≠ [] → js ≠ [] →
      (js.map normalize_skill).take ((js.map normalize_skill).length / 2) ≠ [] →
      calculate_skills_similarity rs js =
        min (((((rs.map normalize_skill).toFinset ∩ (js.map normalize_skill).toFinset).card : ℚ) /
            (((rs.map normalize_skill).toFinset ∪ (js.map normalize_skill).toFinset).card : ℚ) +
            ((((rs.map normalize_skill).toFinset ∩ (js.map normalize_skill).toFinset) ∩
              ((js.map normalize_skill).take ((js.map normalize_skill).length / 2)).toFinset).card : ℚ) /
            (((js.map normalize_skill).take ((js.map normalize_skill).length / 2)).length : ℚ)) / 2) 1) ∧
    (rs ≠ [] → js ≠ [] →
      (rs.map normalize_skill).toFinset = (js.map normalize_skill).toFinset →
      ((js.map normalize_skill).take ((js.map normalize_skill).length / 2)).Nodup →
      calculate_skills_similarity rs js = 1) ∧
    (rs ≠ [] → js ≠ [] →
      (rs.map normalize_skill).toFinset ∩ (js.map normalize_skill).toFinset = ∅ →
      calculate_skills_similarity rs js = 0) := by
  have hunion : js ≠ [] →
      (rs.map normalize_skill).toFinset ∪ (js.map normalize_skill).toFinset ≠ ∅ := by
    intro hj hcon
    rw [Finset.union_eq_empty] at hcon
    rw [List.toFinset_eq_empty_iff] at hcon
    exact hj (by simpa using hcon.2)
  refine ⟨?_, ?_, ?_, ?_, ?_⟩
  · rintro ⟨h1, h2⟩
    simp only [calculate_skills_similarity]
    rw [if_pos (Or.inl h1)]
  · intro hr hj hreq
    simp only [calculate_skills_similarity]
    rw [if_neg (by simp [hr, hj]), if_neg (hunion hj), if_pos hreq]
    have hsub : ((rs.map normalize_skill).toFinset ∩ (js.map normalize_skill).toFinset)
        ⊆ ((rs.map normalize_skill).toFinset ∪ (js.map normalize_skill).toFinset) :=
      le_trans Finset.inter_subset_left Finset.subset_union_left
    have hpos : 0 < (((rs.map normalize_skill).toFinset ∪
        (js.map normalize_skill).toFinset).card : ℚ) := by
      have := Finset.card_pos.mpr (Finset.nonempty_iff_ne_empty.mpr (hunion hj))
      exact_mod_cast this
    exact min_eq_left ((div_le_one hpos).mpr (by exact_mod_cast Finset.card_le_card hsub))
  · intro hr hj hreq
    simp only [calculate_skills_similarity]
    rw [if_neg (by simp [hr, hj]), if_neg (hunion hj), if_neg hreq]
  · intro hr hj hsets hnd
    simp only [calculate_skills_similarity]
    rw [if_neg (by simp [hr, hj]), if_neg (hunion hj)]
    have hJ : (js.map normalize_skill).toFinset.Nonempty := by
      rw [Finset.nonempty_iff_ne_empty, ne_eq, List.toFinset_eq_empty_iff]
      simpa using hj
    have hmatch : (rs.map normalize_skill).toFinset ∩ (js.map normalize_skill).toFinset
        = (js.map normalize_skill).toFinset := by
      rw [hsets, Finset.inter_self]
    have hun : (rs.map normalize_skill).toFinset ∪ (js.map normalize_skill).toFinset
        = (js.map normalize_skill).toFinset := by
      rw [hsets, Finset.union_self]
    have hcardpos : 0 < ((js.map normalize_skill).toFinset.card : ℚ) := by
      exact_mod_cast Finset.card_pos.mpr hJ
    split_ifs with h1
    · rw [hmatch, hun]
      rw [div_self (ne_of_gt hcardpos), min_eq_left le_rfl]
    · have hsubreq : ((js.map normalize_skill).take
          ((js.map normalize_skill).length / 2)).toFinset
          ⊆ (js.map normalize_skill).toFinset := by
        intro x hx
        rw [List.mem_toFinset] at hx ⊢
        exact List.take_subset _ _ hx
      have hreqm : ((rs.map normalize_skill).toFinset ∩ (js.map normalize_skill).toFinset) ∩
          ((js.map normalize_skill).take ((js.map normalize_skill).length / 2)).toFinset =
          ((js.map normalize_skill).take ((js.map normalize_skill).length / 2)).toFinset := by
        rw [hmatch]
        exact Finset.inter_eq_right.mpr hsubreq
      have hlenpos : 0 < (((js.map normalize_skill).take
          ((js.map normalize_skill).length / 2)).length : ℚ) := by
        have : ((js.map normalize_skill).take ((js.map normalize_skill).length / 2)).length ≠ 0 :=
          fun hc => h1 (List.eq_nil_of_length_eq_zero hc)
        exact_mod_cast Nat.pos_of_ne_zero this
      rw [hreqm, hmatch, hun, List.toFinset_card_of_nodup hnd,
        div_self (ne_of_gt hcardpos), div_self (ne_of_gt hlenpos)]
      norm_num
  · intro hr hj hdisj
    simp only [calculate_skills_similarity]
    rw [if_neg (by simp [hr, hj]), if_neg (hunion hj), hdisj]
    have hsub0 : (∅ : Finset String) ∩ ((js.map normalize_skill).take
        ((js.map normalize_skill).length / 2)).toFinset = ∅ := Finset.empty_inter _
    rw [hsub0]
    split_ifs with h1
    · simp
    · simp

end JobMatcher

namespace JobMatcher

/-- C2 counterexample: the lists ["a"] and ["a","a","a","a"] have
identical, non-empty normalized skill sets, yet the score is 0.75, not
the claimed 1.0 — the required boost divides by the LENGTH of the
first-half list ["a","a"] (2) while only one distinct skill matches. -/
theorem claim_C2_skills_similarity_counterexample :
    (["a"].map normalize_skill).toFinset = (["a", "a", "a", "a"].map normalize_skill).toFinset ∧
    (["a"] : List String) ≠ [] ∧
    calculate_skills_similarity ["a"] ["a", "a", "a", "a"] = 3/4 ∧
    calculate_skills_similarity ["a"] ["a", "a", "a", "a"] ≠ 1 := by
  have heval : calculate_skills_similarity ["a"] ["a", "a", "a", "a"] = 3/4 := by
    simp only [calculate_skills_similarity]
    simp +decide
    norm_num
  exact ⟨by decide, by decide, heval, by rw [heval]; norm_num⟩

/-- C2 witness: the amended theorem applied to identical duplicate-free
lists ["python","sql"], where the score is 1. -/
theorem claim_C2_skills_similarity_amended_witness :
    calculate_skills_similarity ["python", "sql"] ["python", "sql"] = 1 :=
  (claim_C2_skills_similarity_amended ["python", "sql"] ["python", "sql"]).2.2.2.1
    (by decide) (by decide) (by decide) (by decide)

end JobMatcher

namespace JobMatcher

/-! Fold lemmas characterizing `_extract_education_level`. -/

theorem foldl_rank_update_snd (d : String) (tbl : List (String × Nat)) (st : String × Nat) :
    (tbl.foldl (rank_update d) st).2 =
    tbl.foldl (fun a p => if containsSub d p.1 then max a p.2 else a) st.2 := by
  induction tbl generalizing st with
  | nil => rfl
  | cons p tbl ih =>
    simp only [List.foldl_cons]
    rw [ih]
    congr 1
    by_cases hc : containsSub d p.1 = true
    · by_cases hlt : st.2 < p.2
      · rw [rank_update, if_pos ⟨hc, hlt⟩, if_pos hc]
        omega
      · rw [rank_update, if_neg (fun h => hlt h.2), if_pos hc]
        omega
    · rw [rank_update, if_neg (fun h => hc h.1), if_neg hc]

theorem foldl_rank_acc (d : String) (tbl : List (String × Nat)) (a : Nat) :
    tbl.foldl (fun acc p => if containsSub d p.1 then max acc p.2 else acc) a =
    max a (tbl.foldl (fun acc p => if containsSub d p.1 then max acc p.2 else acc) 0) := by
  induction tbl generalizing a with
  | nil => simp
  | cons p tbl ih =>
    simp only [List.foldl_cons]
    rw [ih, ih (if containsSub d p.1 = true then max 0 p.2 else 0)]
    by_cases hc : containsSub d p.1 = true
    · rw [if_pos hc, if_pos hc]
      omega
    · rw [if_neg hc, if_neg hc]
      omega

theorem edu_step_snd (st : String × Nat) (e : EduEntry) :
    (edu_step st e).2 = max st.2 (matched_rank (lower e.degree)) := by
  rw [edu_step, foldl_rank_update_snd, matched_rank, foldl_rank_acc]

theorem foldl_max_matched_acc (l : List EduEntry) (a : Nat) :
    l.foldl (fun acc e => max acc (matched_rank (lower e.degree))) a =
    max a (max_matched_rank l) := by
  rw [max_matched_rank]
  induction l generalizing a with
  | nil => simp
  | cons e l ih =>
    simp only [List.foldl_cons]
    rw [ih, ih (max 0 (matched_rank (lower e.degree)))]
    omega

theorem foldl_edu_step_snd (l : List EduEntry) (st : String × Nat) :
    (l.foldl edu_step st).2 = max st.2 (max_matched_rank l) := by
  induction l generalizing st with
  | nil => simp [max_matched_rank]
  | cons e l ih =>
    simp only [List.foldl_cons]
    rw [ih, edu_step_snd]
    have h1 : max_matched_rank (e :: l) =
        max (max 0 (matched_rank (lower e.degree))) (max_matched_rank l) := by
      rw [max_matched_rank, List.foldl_cons, foldl_max_matched_acc]
    rw [h1]
    omega

theorem foldl_rank_update_result (d : String) (tbl : List (String × Nat))
    (st : String × Nat) :
    tbl.foldl (rank_update d) st = st ∨ tbl.foldl (rank_update d) st ∈ tbl := by
  induction tbl generalizing st with
  | nil => exact Or.inl rfl
  | cons p tbl ih =>
    simp only [List.foldl_cons]
    rcases ih (rank_update d st p) with h | h
    · rw [h, rank_update]
      split_ifs with hc
      · exact Or.inr (List.mem_cons_self _ _)
      · exact Or.inl rfl
    · exact Or.inr (List.mem_cons_of_mem _ h)

theorem foldl_edu_step_result (l : List EduEntry) (st : String × Nat) :
    l.foldl edu_step st = st ∨ l.foldl edu_step st ∈ education_levels_extract := by
  induction l generalizing st with
  | nil => exact Or.inl rfl
  | cons e l ih =>
    simp only [List.foldl_cons]
    rcases ih (edu_step st e) with h | h
    · rw [h, edu_step]
      exact foldl_rank_update_result _ _ _
    · exact Or.inr h

theorem extract_rank_of_result (l : List EduEntry) (st : String × Nat)
    (hst : extract_rank st.1 = st.2) :
    extract_rank (l.foldl edu_step st).1 = (l.foldl edu_step st).2 := by
  rcases foldl_edu_step_result l st with h | h
  · rw [h, hst]
  · have : ∀ p ∈ education_levels_extract, extract_rank p.1 = p.2 := by decide
    exact this _ h

end JobMatcher

namespace JobMatcher

/-- C5 (amended): feature normalization reduces the education list to the
highest-ranked level whose keyword matches an entry (rank through the
extraction table, non-matching entries ignored), but floored at bachelor:
the accumulator starts at ("bachelor", 3), so the result rank is
max(3, highest matched rank) and any list whose matches all rank at most
3 — including associate-only and high-school-only lists, not just the
empty list — normalizes to "bachelor". -/
theorem claim_C5_extract_education_amended (education : List EduEntry) :
    (education = [] → extract_education_level education = "bachelor") ∧
    extract_rank (extract_education_level education) = max 3 (max_matched_rank education) ∧
    (max_matched_rank education ≤ 3 → extract_education_level education = "bachelor") ∧
    extract_education_level [⟨"U", "Master of Science", "CS"⟩] = "master" := by
  by_cases h : education = []
  · subst h
    exact ⟨fun _ => rfl, by decide, fun _ => rfl, by decide⟩
  · have hrank := extract_rank_of_result education ("bachelor", 3) (by decide)
    have hsnd := foldl_edu_step_snd education ("bachelor", 3)
    have hext : extract_education_level education =
        (education.foldl edu_step ("bachelor", 3)).1 := by
      rw [extract_education_level, if_neg h]
    refine ⟨fun he => absurd he h, ?_, ?_, by decide⟩
    · rw [hext, hrank, hsnd]
    · intro hle
      rcases foldl_edu_step_result education ("bachelor", 3) with hr | hr
      · rw [hext, hr]
      · have h3 : (education.foldl edu_step ("bachelor", 3)).2 = 3 := by
          rw [hsnd]; omega
        have htable : ∀ p ∈ education_levels_extract, p.2 = 3 → p.1 = "bachelor" := by
          decide
        have htab2 : ∀ p ∈ education_levels_extract, extract_rank p.1 = p.2 := by decide
        rw [hext]
        have := htable _ hr
        rcases hp : education.foldl edu_step ("bachelor", 3) with ⟨lvl, sc⟩
        rw [hp] at hr h3
        exact htable _ hr h3

/-- C5 counterexample: an education list whose single entry matches the
keyword "associate" (and one matching "high school") is normalized to
"bachelor", not to the matched level as the claim states. -/
theorem claim_C5_extract_education_counterexample :
    containsSub (lower "Associate of Arts") "associate" = true ∧
    extract_education_level [⟨"C", "Associate of Arts", "Arts"⟩] = "bachelor" ∧
    extract_education_level [⟨"H", "High School Diploma", "General"⟩] = "bachelor" := by
  decide

/-- C5 witness: the amended theorem applied to an associate-only list,
which normalizes to "bachelor". -/
theorem claim_C5_extract_education_amended_witness :
    extract_education_level [⟨"C", "Associate Degree", "Arts"⟩] = "bachelor" :=
  (claim_C5_extract_education_amended [⟨"C", "Associate Degree", "Arts"⟩]).2.2.1
    (by decide)

end JobMatcher
